import Mathlib

/-!
Verification of the detection & response core of a lightweight EDR agent.

Each C++ subsystem referenced by the specification is shallowly embedded as
executable Lean definitions: the HMAC-chained audit logger
(src/compliance/AuditLogger.cpp), the event bus (src/core/EventBus.cpp), the
per-process risk scorer (src/engine/RiskScorer.cpp), the incident lifecycle
manager (src/response/IncidentManager.cpp) and the incident row
serialisation of the persistence layer (src/persistence/DatabaseManager.cpp).
Machine integers (uint32) are modelled as Nat reduced mod 2^32 at every
arithmetic step that the C++ performs on uint32 values.  The HMAC-SHA256
primitive (OpenSSL) and the ISO-8601 clock formatter are external to the
repository and are taken as opaque function parameters.
-/

namespace Cortex

/-- The uint32 modulus 2^32: C++ unsigned arithmetic wraps at this bound. -/
def U32 : Nat := 4294967296

/-! ## Audit logger (src/compliance/AuditLogger.cpp)

Audit rows as stored in the audit_log relation.  The timestamp field holds
the ISO-8601 string exactly as the database stores it; the HMAC is computed
over this textual form (ComputeEntryHashFromStrings). -/

/-- One row of the audit_log relation (DatabaseManager::AuditEntryRow). -/
structure AuditEntryRow where
  sequence_id : Nat
  timestamp : String
  action : String
  actor : String
  target : String
  details : String
  prev_hash : String
  entry_hash : String
  deriving DecidableEq, Repr

/-- Canonical serialisation of an entry: the six fields joined by the single
ASCII byte 0x7c in the listed order (AuditLogger::ComputeEntryHash). -/
def canonical (ts action actor target details prev : String) : String :=
  ts ++ "|" ++ action ++ "|" ++ actor ++ "|" ++ target ++ "|" ++ details ++ "|" ++ prev

/-- AuditLogger::ComputeEntryHashFromStrings: HMAC-SHA256 of the canonical
serialisation.  The HMAC primitive itself is OpenSSL code outside the
repository, so it is passed in as an opaque function of (key, data). -/
def ComputeEntryHashFromStrings (hmac : String → String → String)
    (key ts action actor target details prev : String) : String :=
  hmac key (canonical ts action actor target details prev)

/-- The arguments of one AuditLogger::LogAction call, together with the
ISO-8601 rendering of the wall-clock timestamp taken at step 2 of the call. -/
structure AuditReq where
  ts : String
  action : String
  actor : String
  target : String
  details : String
  deriving DecidableEq, Repr

/-- The logger-plus-store state that LogAction touches: the chain tip
(last_hash_), the entry counter (entry_count_) and the audit_log rows. -/
structure AuditState where
  last_hash : String
  entry_count : Nat
  rows : List AuditEntryRow
  deriving DecidableEq, Repr

/-- A freshly initialised logger over an empty store: the tip is the literal
GENESIS and no rows exist (AuditLogger::Initialize with an empty chain). -/
def initAudit : AuditState :=
  { last_hash := "GENESIS", entry_count := 0, rows := [] }

/-- AuditLogger::LogAction.  The entry is assembled with prev_hash := tip and
entry_hash := HMAC over the canonical serialisation; the row insert is
InsertAuditEntry, whose success is modelled by writeOk (sqlite3_step
returning SQLITE_DONE).  Faithful to the source, last_hash_ and entry_count_
are updated after the insert call regardless of writeOk: the C++ ignores the
insert outcome (InsertAuditEntry returns void and LogAction assigns
last_hash_ and increments entry_count_ unconditionally). -/
def LogAction (hmac : String → String → String) (key : String)
    (st : AuditState) (r : AuditReq) (writeOk : Bool) : AuditState :=
  let h := ComputeEntryHashFromStrings hmac key r.ts r.action r.actor r.target r.details st.last_hash
  { last_hash := h
    entry_count := st.entry_count + 1
    rows :=
      if writeOk then
        st.rows ++ [{ sequence_id := st.rows.length + 1, timestamp := r.ts,
                      action := r.action, actor := r.actor, target := r.target,
                      details := r.details, prev_hash := st.last_hash, entry_hash := h }]
      else st.rows }

/-- A sequence of successful LogAction calls starting from the empty store. -/
def runLog (hmac : String → String → String) (key : String)
    (reqs : List AuditReq) : AuditState :=
  reqs.foldl (fun s r => LogAction hmac key s r true) initAudit

/-- The loop of AuditLogger::VerifyIntegrity, with expected_prev threaded
through: a row whose prev_hash differs from expected_prev, or whose stored
entry_hash differs from the HMAC recomputed over its stored fields, fails
the verification; otherwise expected_prev becomes the row's entry_hash. -/
def VerifyIntegrityFrom (hmac : String → String → String) (key : String)
    (expected : String) : List AuditEntryRow → Bool
  | [] => true
  | r :: rest =>
    if r.prev_hash ≠ expected then false
    else if ComputeEntryHashFromStrings hmac key r.timestamp r.action r.actor r.target r.details r.prev_hash ≠ r.entry_hash then false
    else VerifyIntegrityFrom hmac key r.entry_hash rest

/-- AuditLogger::VerifyIntegrity over the rows read ascending by sequence id;
expected_prev starts at the literal GENESIS. -/
def VerifyIntegrity (hmac : String → String → String) (key : String)
    (rows : List AuditEntryRow) : Bool :=
  VerifyIntegrityFrom hmac key "GENESIS" rows

/-- Recursive well-formedness of a chain whose first prev_hash must equal e:
the linkage and HMAC equations of the audit chain. -/
def ChainOk (hmac : String → String → String) (key : String) :
    String → List AuditEntryRow → Prop
  | _, [] => True
  | e, r :: rest =>
    r.prev_hash = e ∧
    r.entry_hash = ComputeEntryHashFromStrings hmac key r.timestamp r.action r.actor r.target r.details r.prev_hash ∧
    ChainOk hmac key r.entry_hash rest

/-- Index-wise well-formedness with the first prev_hash equal to e: the three
equations of claim C1 stated over positions of the row list. -/
def WFFrom (hmac : String → String → String) (key : String) (e : String)
    (rows : List AuditEntryRow) : Prop :=
  (∀ h : 0 < rows.length, (rows.get ⟨0, h⟩).prev_hash = e) ∧
  (∀ i, ∀ h : i + 1 < rows.length,
    (rows.get ⟨i + 1, h⟩).prev_hash = (rows.get ⟨i, Nat.lt_of_succ_lt h⟩).entry_hash) ∧
  (∀ i, ∀ h : i < rows.length,
    (rows.get ⟨i, h⟩).entry_hash =
      ComputeEntryHashFromStrings hmac key (rows.get ⟨i, h⟩).timestamp
        (rows.get ⟨i, h⟩).action (rows.get ⟨i, h⟩).actor (rows.get ⟨i, h⟩).target
        (rows.get ⟨i, h⟩).details (rows.get ⟨i, h⟩).prev_hash)

/-- The well-formed audit chains of claim C1: entry 0 links to GENESIS, every
later entry links to its predecessor's entry_hash, and every entry_hash is
the HMAC of the canonical serialisation of the entry's own fields. -/
def WellFormedChain (hmac : String → String → String) (key : String)
    (rows : List AuditEntryRow) : Prop :=
  WFFrom hmac key "GENESIS" rows

theorem wfFrom_nil (hmac : String → String → String) (key e : String) :
    WFFrom hmac key e [] := by
  refine ⟨?_, ?_, ?_⟩ <;> simp [WFFrom]

theorem wfFrom_cons (hmac : String → String → String) (key e : String)
    (r : AuditEntryRow) (rest : List AuditEntryRow) :
    WFFrom hmac key e (r :: rest) ↔
      (r.prev_hash = e ∧
       r.entry_hash = ComputeEntryHashFromStrings hmac key r.timestamp r.action r.actor r.target r.details r.prev_hash ∧
       WFFrom hmac key r.entry_hash rest) := by
  constructor
  · rintro ⟨h1, h2, h3⟩
    refine ⟨h1 (by simp), h3 0 (by simp), ?_, ?_, ?_⟩
    · intro hl
      have := h2 0 (by simpa using Nat.succ_lt_succ hl)
      simpa using this
    · intro i hl
      have := h2 (i + 1) (by simpa using Nat.succ_lt_succ hl)
      simpa using this
    · intro i hl
      have := h3 (i + 1) (by simpa using Nat.succ_lt_succ hl)
      simpa using this
  · rintro ⟨h1, h2, w1, w2, w3⟩
    refine ⟨?_, ?_, ?_⟩
    · intro _; simpa using h1
    · intro i hl
      match i with
      | 0 =>
        have hl0 : 0 < rest.length := by simpa using Nat.lt_of_succ_lt_succ hl
        simpa using w1 hl0
      | j + 1 =>
        have hl0 : j + 1 < rest.length := by simpa using Nat.lt_of_succ_lt_succ hl
        simpa using w2 j hl0
    · intro i hl
      match i with
      | 0 => simpa using h2
      | j + 1 =>
        have hl0 : j < rest.length := by simpa using Nat.lt_of_succ_lt_succ hl
        simpa using w3 j hl0

theorem chainOk_iff_wfFrom (hmac : String → String → String) (key : String) :
    ∀ (rows : List AuditEntryRow) (e : String),
      ChainOk hmac key e rows ↔ WFFrom hmac key e rows := by
  intro rows
  induction rows with
  | nil =>
    intro e
    simp only [ChainOk]
    exact ⟨fun _ => wfFrom_nil hmac key e, fun _ => trivial⟩
  | cons r rest ih =>
    intro e
    rw [wfFrom_cons]
    simp only [ChainOk]
    rw [ih r.entry_hash]

theorem verifyFrom_iff_chainOk (hmac : String → String → String) (key : String) :
    ∀ (rows : List AuditEntryRow) (e : String),
      VerifyIntegrityFrom hmac key e rows = true ↔ ChainOk hmac key e rows := by
  intro rows
  induction rows with
  | nil => intro e; simp [VerifyIntegrityFrom, ChainOk]
  | cons r rest ih =>
    intro e
    simp only [VerifyIntegrityFrom, ChainOk]
    by_cases h1 : r.prev_hash = e
    · by_cases h2 : ComputeEntryHashFromStrings hmac key r.timestamp r.action r.actor r.target r.details r.prev_hash = r.entry_hash
      · rw [if_neg (not_not_intro h1), if_neg (not_not_intro h2)]
        constructor
        · intro hv
          exact ⟨h1, h2.symm, (ih r.entry_hash).mp hv⟩
        · rintro ⟨-, -, hc⟩
          exact (ih r.entry_hash).mpr hc
      · rw [if_neg (not_not_intro h1), if_pos h2]
        constructor
        · intro hv; simp at hv
        · rintro ⟨-, hh, -⟩
          exact absurd hh.symm h2
    · rw [if_pos h1]
      constructor
      · intro hv; simp at hv
      · rintro ⟨hp, -, -⟩
        exact absurd hp h1

/-- The chain tip determined by rows already in the store, starting from e:
e itself when no rows were appended, else the last entry_hash. -/
def tipOfFrom (e : String) : List AuditEntryRow → String
  | [] => e
  | r :: rest => tipOfFrom r.entry_hash rest

theorem chainOk_append (hmac : String → String → String) (key : String)
    (r : AuditEntryRow) :
    ∀ (rows : List AuditEntryRow) (e : String),
      ChainOk hmac key e (rows ++ [r]) ↔
        (ChainOk hmac key e rows ∧ r.prev_hash = tipOfFrom e rows ∧
         r.entry_hash = ComputeEntryHashFromStrings hmac key r.timestamp r.action r.actor r.target r.details r.prev_hash) := by
  intro rows
  induction rows with
  | nil =>
    intro e
    constructor
    · intro hc
      obtain ⟨hp, hh, -⟩ :=
        (hc : r.prev_hash = e ∧
          r.entry_hash = ComputeEntryHashFromStrings hmac key r.timestamp r.action r.actor r.target r.details r.prev_hash ∧
          ChainOk hmac key r.entry_hash [])
      exact ⟨trivial, hp, hh⟩
    · rintro ⟨-, hp, hh⟩
      exact ⟨hp, hh, trivial⟩
  | cons r0 rest ih =>
    intro e
    constructor
    · intro hc
      obtain ⟨hp, hh, hrest⟩ :=
        (hc : r0.prev_hash = e ∧
          r0.entry_hash = ComputeEntryHashFromStrings hmac key r0.timestamp r0.action r0.actor r0.target r0.details r0.prev_hash ∧
          ChainOk hmac key r0.entry_hash (rest ++ [r]))
      obtain ⟨hc0, htip, hhash⟩ := (ih r0.entry_hash).mp hrest
      exact ⟨⟨hp, hh, hc0⟩, htip, hhash⟩
    · rintro ⟨⟨hp, hh, hc0⟩, htip, hhash⟩
      exact ⟨hp, hh, (ih r0.entry_hash).mpr ⟨hc0, htip, hhash⟩⟩

/-- The audit invariant maintained by LogAction on successful writes: the
stored rows form a well-linked chain and last_hash_ equals the chain tip. -/
def AuditInv (hmac : String → String → String) (key : String)
    (st : AuditState) : Prop :=
  ChainOk hmac key "GENESIS" st.rows ∧ st.last_hash = tipOfFrom "GENESIS" st.rows

theorem tipOfFrom_append (r : AuditEntryRow) :
    ∀ (rows : List AuditEntryRow) (e : String),
      tipOfFrom e (rows ++ [r]) = r.entry_hash := by
  intro rows
  induction rows with
  | nil => intro e; simp [tipOfFrom]
  | cons r0 rest ih => intro e; simp [tipOfFrom, ih r0.entry_hash]

theorem logAction_inv (hmac : String → String → String) (key : String)
    (st : AuditState) (r : AuditReq) (h : AuditInv hmac key st) :
    AuditInv hmac key (LogAction hmac key st r true) := by
  obtain ⟨hchain, htip⟩ := h
  constructor
  · rw [LogAction]
    simp only [if_pos]
    rw [chainOk_append]
    exact ⟨hchain, by simpa using htip, rfl⟩
  · rw [LogAction]
    simp only [if_pos]
    rw [tipOfFrom_append]

theorem runLog_inv (hmac : String → String → String) (key : String)
    (reqs : List AuditReq) :
    AuditInv hmac key (runLog hmac key reqs) := by
  have base : AuditInv hmac key initAudit := by
    constructor <;> simp [initAudit, ChainOk, tipOfFrom]
  rw [runLog]
  generalize initAudit = st0 at base ⊢
  induction reqs generalizing st0 with
  | nil => simpa using base
  | cons r rest ih =>
    simp only [List.foldl_cons]
    exact ih (LogAction hmac key st0 r true) (logAction_inv hmac key st0 r base)

/-- Claim C1: every audit chain produced by a sequence of successful
log_action calls from an empty store satisfies the GENESIS / linkage / HMAC
equations of the claim, and verify_integrity returns true on exactly the
chains satisfying those equations (false on any chain violating one). -/
theorem c1_audit_chain (hmac : String → String → String) (key : String) :
    (∀ reqs : List AuditReq,
        WellFormedChain hmac key (runLog hmac key reqs).rows) ∧
    (∀ rows : List AuditEntryRow,
        VerifyIntegrity hmac key rows = true ↔ WellFormedChain hmac key rows) := by
  constructor
  · intro reqs
    have h := (runLog_inv hmac key reqs).1
    exact (chainOk_iff_wfFrom hmac key _ _).mp h
  · intro rows
    rw [VerifyIntegrity, WellFormedChain, ← chainOk_iff_wfFrom]
    exact verifyFrom_iff_chainOk hmac key rows "GENESIS"

/-- A concrete stand-in for the opaque HMAC primitive, used to instantiate
universally quantified theorems on concrete inputs. -/
def hmacT : String → String → String := fun k d => k ++ "#" ++ d

/-- Witness for C1: the chain of one successful log_action call under a
concrete HMAC function is well formed. -/
theorem c1_audit_chain_witness :
    WellFormedChain hmacT "key"
      (runLog hmacT "key" [{ ts := "t1", action := "a1", actor := "u1", target := "g1", details := "d1" }]).rows :=
  (c1_audit_chain hmacT "key").1
    [{ ts := "t1", action := "a1", actor := "u1", target := "g1", details := "d1" }]

/-- Claim C2 (amended): LogAction advances last_hash_ and entry_count_
unconditionally — also when the store write fails.  After a failed write the
rows are unchanged, but the tip becomes the failed entry's hash and the next
successfully logged entry's prev_hash equals that hash, not the tip as it
was before the failed call. -/
theorem c2_failed_write_advances_tip (hmac : String → String → String)
    (key : String) (st : AuditState) (r r2 : AuditReq) :
    (LogAction hmac key st r false).rows = st.rows ∧
    (LogAction hmac key st r false).entry_count = st.entry_count + 1 ∧
    (LogAction hmac key st r false).last_hash =
      ComputeEntryHashFromStrings hmac key r.ts r.action r.actor r.target r.details st.last_hash ∧
    (LogAction hmac key (LogAction hmac key st r false) r2 true).rows.getLast?.map
        (fun row => row.prev_hash) =
      some (ComputeEntryHashFromStrings hmac key r.ts r.action r.actor r.target r.details st.last_hash) := by
  refine ⟨rfl, rfl, rfl, ?_⟩
  simp [LogAction]

/-- A concrete LogAction request used on concrete runs. -/
def reqA : AuditReq :=
  { ts := "2024-01-01T00:00:00.000Z", action := "A", actor := "system",
    target := "t", details := "d" }

/-- Claim C2 counterexample: on a failed store write the chain tip and the
entry counter do change, and the next successfully logged entry's prev_hash
differs from the tip as it was before the failed call — refuting the claim
at a concrete input. -/
theorem c2_counterexample :
    (LogAction hmacT "key" initAudit reqA false).last_hash ≠ initAudit.last_hash ∧
    (LogAction hmacT "key" initAudit reqA false).entry_count ≠ initAudit.entry_count ∧
    (LogAction hmacT "key" (LogAction hmacT "key" initAudit reqA false) reqA true).rows.getLast?.map
        (fun row => row.prev_hash) ≠ some initAudit.last_hash := by
  refine ⟨by decide, by decide, ?_⟩
  simp [LogAction, initAudit, reqA, hmacT, ComputeEntryHashFromStrings, canonical]

/-- Witness for C2's amended theorem at a concrete state and request. -/
theorem c2_failed_write_advances_tip_witness :
    (LogAction hmacT "key" initAudit reqA false).rows = initAudit.rows ∧
    (LogAction hmacT "key" initAudit reqA false).entry_count = initAudit.entry_count + 1 ∧
    (LogAction hmacT "key" initAudit reqA false).last_hash =
      ComputeEntryHashFromStrings hmacT "key" reqA.ts reqA.action reqA.actor reqA.target reqA.details initAudit.last_hash ∧
    (LogAction hmacT "key" (LogAction hmacT "key" initAudit reqA false) reqA true).rows.getLast?.map
        (fun row => row.prev_hash) =
      some (ComputeEntryHashFromStrings hmacT "key" reqA.ts reqA.action reqA.actor reqA.target reqA.details initAudit.last_hash) :=
  c2_failed_write_advances_tip hmacT "key" initAudit reqA reqA

/-! ## Event bus (src/core/EventBus.cpp, src/core/EventBus.hpp) -/

/-- The closed set of event kinds (enum class EventType). -/
inductive EventType where
  | PROCESS_CREATE
  | PROCESS_TERMINATE
  | FILE_CREATE
  | FILE_MODIFY
  | FILE_DELETE
  | NETWORK_CONNECT
  | NETWORK_DISCONNECT
  | REGISTRY_WRITE
  | RISK_THRESHOLD_EXCEEDED
  | INCIDENT_STATE_CHANGE
  | CONTAINMENT_ACTION
  deriving DecidableEq, Repr

/-- struct Event: kind, epoch-ms timestamp, pid, process name and the
string-to-string metadata map (modelled as an association list). -/
structure Event where
  type : EventType
  timestamp : Nat
  pid : Nat
  process_name : String
  metadata : List (String × String)
  deriving DecidableEq, Repr

/-- A subscribed handler: invoking it either returns normally or raises a
C++ exception, modelled as Except with the exception message. -/
def Handler : Type := Event → Except String Unit

/-- The handler invocation loop of EventBus::Publish over the snapshotted
(id, handler) list.  The C++ body is a bare `handler(event)` with no
try/catch, so a raised exception aborts the loop and propagates to the
caller of Publish.  The result records the subscription ids of the handlers
actually invoked, and the propagated exception if any. -/
def runHandlersCpp : List (Nat × Handler) → Event → List Nat × Option String
  | [], _ => ([], none)
  | (id, h) :: rest, e =>
    match h e with
    | Except.ok _ =>
      let res := runHandlersCpp rest e
      (id :: res.1, res.2)
    | Except.error msg => ([id], some msg)

/-- The per-kind subscriber table (subscribers_ in EventBus). -/
def Subscribers : Type := List (EventType × List (Nat × Handler))

/-- The snapshot Publish takes for event.type: the registered handler list
for that kind, or the empty list when the kind has no entry. -/
def handlersFor (subs : Subscribers) (t : EventType) : List (Nat × Handler) :=
  (List.lookup t subs).getD []

/-- EventBus::Publish: snapshot the handler list for the event's kind, then
invoke each handler in registration order. -/
def Publish (subs : Subscribers) (e : Event) : List Nat × Option String :=
  runHandlersCpp (handlersFor subs e.type) e

/-- Claim C3 (amended): Publish invokes the handlers for the event's kind in
registration order only up to and including the first handler that raises;
the raised exception propagates to Publish's caller and the handlers
registered after the raising one are not invoked. -/
theorem c3_exception_aborts_publish (pre : List (Nat × Handler)) (id : Nat)
    (h : Handler) (post : List (Nat × Handler)) (subs : Subscribers)
    (e : Event) (msg : String)
    (hseq : handlersFor subs e.type = pre ++ (id, h) :: post)
    (hpre : ∀ p ∈ pre, p.2 e = Except.ok ())
    (hraise : h e = Except.error msg) :
    Publish subs e = (pre.map Prod.fst ++ [id], some msg) := by
  rw [Publish, hseq]
  clear hseq
  induction pre with
  | nil =>
    simp [runHandlersCpp, hraise]
  | cons p rest ih =>
    have hp : p.2 e = Except.ok () := hpre p (by simp)
    have hrest : ∀ q ∈ rest, q.2 e = Except.ok () := fun q hq => hpre q (by simp [hq])
    rw [List.cons_append]
    simp only [runHandlersCpp, hp, ih hrest]
    simp

/-- A handler that always raises (models a subscriber whose callback throws). -/
def throwingHandler : Handler := fun _ => Except.error "boom"

/-- A handler that always returns normally. -/
def okHandler : Handler := fun _ => Except.ok ()

/-- A concrete subscriber table: two PROCESS_CREATE handlers, the first of
which raises. -/
def subsEx : Subscribers :=
  [(EventType.PROCESS_CREATE, [(1, throwingHandler), (2, okHandler)])]

/-- A concrete event for the bus runs. -/
def evEx : Event :=
  { type := EventType.PROCESS_CREATE, timestamp := 0, pid := 7,
    process_name := "x.exe", metadata := [] }

/-- Claim C3 counterexample: with handler 1 raising, handler 2 — registered
after it for the same kind — is not invoked, and Publish propagates the
exception to its caller, refuting both parts of the claim. -/
theorem c3_counterexample :
    (2 ∈ (Publish subsEx evEx).1) = False ∧ (Publish subsEx evEx).2 ≠ none := by
  constructor
  · simp [Publish, subsEx, evEx, handlersFor, runHandlersCpp, throwingHandler]
  · simp [Publish, subsEx, evEx, handlersFor, runHandlersCpp, throwingHandler]

/-- Witness for C3's amended theorem on the concrete two-handler table. -/
theorem c3_exception_aborts_publish_witness :
    Publish subsEx evEx = ([1], some "boom") := by
  have h := c3_exception_aborts_publish [] 1 throwingHandler [(2, okHandler)]
    subsEx evEx "boom" (by simp [subsEx, evEx, handlersFor]) (by simp) (by rfl)
  simpa using h

/-! ## Risk scorer (src/engine/RiskScorer.cpp, src/engine/RiskScorer.hpp)

All score arithmetic in the C++ is on uint32_t values, so every addition the
code performs is reduced mod 2^32 here. -/

/-- enum class RiskLevel. -/
inductive RiskLevel where
  | LOW
  | MEDIUM
  | HIGH
  | CRITICAL
  deriving DecidableEq, Repr

/-- The four level thresholds (threshold_low_ .. threshold_critical_). -/
structure Thresholds where
  low : Nat
  medium : Nat
  high : Nat
  critical : Nat
  deriving DecidableEq, Repr

/-- The member initialisers of RiskScorer: thresholds 30/60/80/100. -/
def defaultThresholds : Thresholds :=
  { low := 30, medium := 60, high := 80, critical := 100 }

/-- RiskScorer::CalculateLevel, branch for branch.  Note the source returns
MEDIUM both for score ≥ threshold_medium_ and for score ≥ threshold_low_. -/
def CalculateLevel (th : Thresholds) (score : Nat) : RiskLevel :=
  if score ≥ th.critical then RiskLevel.CRITICAL
  else if score ≥ th.high then RiskLevel.HIGH
  else if score ≥ th.medium then RiskLevel.MEDIUM
  else if score ≥ th.low then RiskLevel.MEDIUM
  else RiskLevel.LOW

/-- struct RiskScore: saturated score, level, and the contributing-factors
map from reason string to uint32 points (std::unordered_map, modelled as an
association list with at most one entry per reason). -/
structure RiskScore where
  score : Nat
  level : RiskLevel
  contributing_factors : List (String × Nat)
  deriving DecidableEq, Repr

/-- The RiskScore default constructor: score 0, level LOW, empty map. -/
def initRiskScore : RiskScore :=
  { score := 0, level := RiskLevel.LOW, contributing_factors := [] }

/-- contributing_factors[reason] += points: operator[] default-inserts 0 for
an absent key, then += accumulates in uint32 arithmetic. -/
def bumpFactor : List (String × Nat) → String → Nat → List (String × Nat)
  | [], reason, points => [(reason, points % U32)]
  | (r, v) :: rest, reason, points =>
    if r = reason then (r, (v + points) % U32) :: rest
    else (r, v) :: bumpFactor rest reason points

/-- The summation loop of AddRisk: risk.score += factor, accumulated in
uint32 arithmetic (each addition wraps mod 2^32). -/
def sumFactorsU32 (fs : List (String × Nat)) : Nat :=
  fs.foldl (fun acc p => (acc + p.2) % U32) 0

/-- The mathematical (unwrapped) sum of the map entries, as the claim reads. -/
def sumFactors (fs : List (String × Nat)) : Nat :=
  fs.foldl (fun acc p => acc + p.2) 0

/-- The body of RiskScorer::AddRisk on one pid's RiskScore: accumulate the
reason's points, recompute the score as the uint32 sum of the map clamped by
std::min(score, 100u), and recompute the level. -/
def AddRisk (th : Thresholds) (risk : RiskScore) (reason : String) (points : Nat) : RiskScore :=
  let fs := bumpFactor risk.contributing_factors reason points
  let sc := min (sumFactorsU32 fs) 100
  { score := sc, level := CalculateLevel th sc, contributing_factors := fs }

/-- process_scores_: the pid-to-RiskScore map. -/
def ScorerState : Type := List (Nat × RiskScore)

/-- RiskScorer::GetProcessRiskScore: the pid's entry, or a default RiskScore
when the pid is unknown. -/
def GetProcessRiskScore (s : ScorerState) (pid : Nat) : RiskScore :=
  (List.lookup pid s).getD initRiskScore

/-- Writing back process_scores_[pid] (update in place, insert if absent). -/
def setScore : ScorerState → Nat → RiskScore → ScorerState
  | [], pid, v => [(pid, v)]
  | (p, r) :: rest, pid, v =>
    if p = pid then (p, v) :: rest else (p, r) :: setScore rest pid v

/-- RiskScorer::AddRisk at the scorer level: process_scores_[pid] is
default-constructed on first touch, then updated by the AddRisk body. -/
def scorerAddRisk (th : Thresholds) (s : ScorerState) (pid : Nat)
    (reason : String) (points : Nat) : ScorerState :=
  setScore s pid (AddRisk th (GetProcessRiskScore s pid) reason points)

/-- ASCII ::tolower on one character, as std::transform applies it. -/
def asciiLower (c : Char) : Char :=
  if 65 ≤ c.toNat ∧ c.toNat ≤ 90 then Char.ofNat (c.toNat + 32) else c

/-- std::transform(path.begin(), path.end(), path.begin(), ::tolower). -/
def lowerChars (l : List Char) : List Char :=
  l.map asciiLower

/-- Character-list test that pat starts the given list. -/
def startsWithChars : List Char → List Char → Bool
  | [], _ => true
  | _ :: _, [] => false
  | p :: ps, c :: cs => p == c && startsWithChars ps cs

/-- Character-list occurrence test of pat anywhere in the list. -/
def hasSubChars (pat : List Char) : List Char → Bool
  | [] => startsWithChars pat []
  | c :: cs => startsWithChars pat (c :: cs) || hasSubChars pat cs

/-- Substring containment on a lowercased value:
path.find(pat) != std::string::npos after the ::tolower transform. -/
def lowContains (s : String) (pat : String) : Bool :=
  hasSubChars pat.toList (lowerChars s.toList)

/-- The address whitelist test of the NETWORK_CONNECT case: rfind(p, 0) == 0
prefix tests against the private ranges plus the two exact addresses. -/
def isPrivateAddr (addr : String) : Bool :=
  startsWithChars "10.".toList addr.toList ||
  startsWithChars "192.168.".toList addr.toList ||
  startsWithChars "172.16.".toList addr.toList ||
  addr == "0.0.0.0" || addr == "127.0.0.1"

/-- Leading-decimal-digit accumulator for the port parse. -/
def digitsToNat (acc : Nat) : List Char → Nat
  | [] => acc
  | c :: cs =>
    if 48 ≤ c.toNat ∧ c.toNat ≤ 57 then digitsToNat (acc * 10 + (c.toNat - 48)) cs
    else acc

/-- std::stoi on the numeric port strings the collectors populate (a string
with no leading digits, on which std::stoi would throw, is outside the
modelled domain and parses to 0 here). -/
def parsePort (s : String) : Nat :=
  digitsToNat 0 s.toList

/-- The FILE_CREATE / FILE_MODIFY shared case of ProcessEvent. -/
def fileContrib (e : Event) : List (String × Nat) :=
  match List.lookup "file_path" e.metadata with
  | some path =>
    if lowContains path "\\system32\\" || lowContains path "\\syswow64\\" then
      [("write_to_system_directory", 15)]
    else []
  | none => []

/-- The (reason, points) contributions the switch of RiskScorer::ProcessEvent
derives from one event, in the order the source issues its AddRisk calls
(the NETWORK_CONNECT case can issue two: address first, then port). -/
def contributions (e : Event) : List (String × Nat) :=
  match e.type with
  | EventType.PROCESS_CREATE =>
    match List.lookup "image_path" e.metadata with
    | some path =>
      if lowContains path "\\temp\\" || lowContains path "\\appdata\\" then
        [("process_from_temp_or_appdata", 15)]
      else []
    | none => []
  | EventType.FILE_CREATE => fileContrib e
  | EventType.FILE_MODIFY => fileContrib e
  | EventType.NETWORK_CONNECT =>
    (match List.lookup "remote_address" e.metadata with
     | some addr => if !isPrivateAddr addr then [("connection_to_external_ip", 10)] else []
     | none => []) ++
    (match List.lookup "remote_port" e.metadata with
     | some ps =>
       let port := parsePort ps
       if port = 4444 || port = 1337 || port = 6667 || port = 31337 then
         [("connection_to_suspicious_port", 15)]
       else []
     | none => [])
  | EventType.REGISTRY_WRITE =>
    match List.lookup "key_path" e.metadata with
    | some key =>
      if lowContains key "\\run" || lowContains key "\\services" then
        [("registry_persistence_modification", 20)]
      else []
    | none => []
  | _ => []

/-- RiskScorer::ProcessEvent: issue the event's AddRisk calls in order. -/
def ProcessEvent (th : Thresholds) (s : ScorerState) (e : Event) : ScorerState :=
  (contributions e).foldl (fun acc c => scorerAddRisk th acc e.pid c.1 c.2) s

/-- Claim C4 counterexample: add_risk(1, r, 10) then add_risk(1, r, 20)
leaves the entry for r at 30 — the contributions accumulate — and the score
at 30, refuting the replace-semantics of the claim (entry p2 = 20 alone). -/
theorem c4_counterexample :
    List.lookup "r"
      (GetProcessRiskScore
        (scorerAddRisk defaultThresholds
          (scorerAddRisk defaultThresholds [] 1 "r" 10) 1 "r" 20) 1).contributing_factors
      = some 30 ∧
    (GetProcessRiskScore
        (scorerAddRisk defaultThresholds
          (scorerAddRisk defaultThresholds [] 1 "r" 10) 1 "r" 20) 1).score = 30 ∧
    some (30 : Nat) ≠ some 20 ∧ (30 : Nat) ≠ min 100 20 := by
  refine ⟨by decide, by decide, by decide, by decide⟩

/-- Claim C4 (amended): a second add_risk with the same reason tag adds to
the previous contribution in uint32 arithmetic — the entry becomes
(p1 + p2) mod 2^32, not p2 alone — and the score is min(100, that total). -/
theorem c4_same_reason_accumulates (th : Thresholds) (pid : Nat)
    (reason : String) (p1 p2 : Nat) :
    (GetProcessRiskScore
        (scorerAddRisk th (scorerAddRisk th [] pid reason p1) pid reason p2)
        pid).contributing_factors = [(reason, (p1 % U32 + p2) % U32)] ∧
    (GetProcessRiskScore
        (scorerAddRisk th (scorerAddRisk th [] pid reason p1) pid reason p2)
        pid).score = min ((p1 % U32 + p2) % U32) 100 := by
  have hmm : ((p1 % U32 + p2) % U32) % U32 = (p1 % U32 + p2) % U32 :=
    Nat.mod_mod_of_dvd _ dvd_rfl
  constructor
  · simp [scorerAddRisk, GetProcessRiskScore, setScore, AddRisk, bumpFactor,
      initRiskScore, List.lookup]
  · simp [scorerAddRisk, GetProcessRiskScore, setScore, AddRisk, bumpFactor,
      sumFactorsU32, initRiskScore, List.lookup, hmm]

/-- Claim C5: evaluation of CalculateLevel at the default thresholds on the
failing region [30,60): the source returns MEDIUM there (the score ≥ low
branch also returns MEDIUM), not LOW as the claim states. -/
theorem c5_level_eval :
    CalculateLevel defaultThresholds 30 = RiskLevel.MEDIUM ∧
    CalculateLevel defaultThresholds 45 = RiskLevel.MEDIUM ∧
    CalculateLevel defaultThresholds 59 = RiskLevel.MEDIUM ∧
    RiskLevel.MEDIUM ≠ RiskLevel.LOW ∧
    CalculateLevel defaultThresholds 29 = RiskLevel.LOW ∧
    CalculateLevel defaultThresholds 60 = RiskLevel.MEDIUM ∧
    CalculateLevel defaultThresholds 80 = RiskLevel.HIGH ∧
    CalculateLevel defaultThresholds 100 = RiskLevel.CRITICAL := by
  refine ⟨by decide, by decide, by decide, by decide, by decide, by decide, by decide, by decide⟩

theorem lookup_setScore_self : ∀ (s : ScorerState) (pid : Nat) (v : RiskScore),
    List.lookup pid (setScore s pid v) = some v := by
  intro s
  induction s with
  | nil => intro pid v; simp [setScore, List.lookup]
  | cons p rest ih =>
    intro pid v
    obtain ⟨q, r⟩ := p
    by_cases h : q = pid
    · subst h; simp [setScore, List.lookup]
    · simp only [setScore, if_neg h, List.lookup]
      rw [show (pid == q) = false by simpa using Ne.symm h]
      exact ih pid v

theorem lookup_setScore_ne (q : Nat) : ∀ (s : ScorerState) (pid : Nat) (v : RiskScore),
    q ≠ pid → List.lookup q (setScore s pid v) = List.lookup q s := by
  intro s
  induction s with
  | nil =>
    intro pid v hq
    simp only [setScore, List.lookup]
    rw [show (q == pid) = false by simpa using hq]
  | cons p rest ih =>
    intro pid v hq
    obtain ⟨k, r⟩ := p
    by_cases h : k = pid
    · subst h
      simp only [setScore, if_pos rfl, List.lookup]
      rw [show (q == k) = false by simpa using hq]
    · simp only [setScore, if_neg h, List.lookup]
      by_cases hk : q = k
      · rw [show (q == k) = true by simpa using hk]
      · rw [show (q == k) = false by simpa using hk]
        exact ih pid v hq

/-- The score/factor invariant of the scorer: each observed score is the
uint32 sum of the pid's contributing factors clamped at 100. -/
def WellScored (s : ScorerState) : Prop :=
  ∀ pid, (GetProcessRiskScore s pid).score =
    min (sumFactorsU32 (GetProcessRiskScore s pid).contributing_factors) 100

theorem wellScored_nil : WellScored [] := by
  intro pid
  simp [GetProcessRiskScore, List.lookup, initRiskScore, sumFactorsU32]

theorem wellScored_addRisk (th : Thresholds) (s : ScorerState) (pid : Nat)
    (reason : String) (points : Nat) (h : WellScored s) :
    WellScored (scorerAddRisk th s pid reason points) := by
  intro q
  by_cases hq : q = pid
  · subst hq
    rw [GetProcessRiskScore, scorerAddRisk, lookup_setScore_self]
    simp [AddRisk]
  · rw [GetProcessRiskScore, scorerAddRisk, lookup_setScore_ne q s pid _ hq]
    exact h q

theorem wellScored_fold (th : Thresholds) (pid : Nat) :
    ∀ (cs : List (String × Nat)) (s : ScorerState), WellScored s →
      WellScored (cs.foldl (fun acc c => scorerAddRisk th acc pid c.1 c.2) s) := by
  intro cs
  induction cs with
  | nil => intro s h; simpa using h
  | cons c rest ih =>
    intro s h
    simp only [List.foldl_cons]
    exact ih _ (wellScored_addRisk th s pid c.1 c.2 h)

theorem wellScored_processEvent (th : Thresholds) (s : ScorerState) (e : Event)
    (h : WellScored s) : WellScored (ProcessEvent th s e) :=
  wellScored_fold th e.pid (contributions e) s h

theorem wellScored_events (th : Thresholds) :
    ∀ (events : List Event) (s : ScorerState), WellScored s →
      WellScored (events.foldl (ProcessEvent th) s) := by
  intro events
  induction events with
  | nil => intro s h; simpa using h
  | cons e rest ih =>
    intro s h
    simp only [List.foldl_cons]
    exact ih _ (wellScored_processEvent th s e h)

theorem sumFactorsU32_eq_mod : ∀ fs : List (String × Nat),
    sumFactorsU32 fs = sumFactors fs % U32 := by
  have aux : ∀ (fs : List (String × Nat)) (acc : Nat),
      fs.foldl (fun a p => (a + p.2) % U32) (acc % U32) =
        (fs.foldl (fun a p => a + p.2) acc) % U32 := by
    intro fs
    induction fs with
    | nil => intro acc; rfl
    | cons p rest ih =>
      intro acc
      simp only [List.foldl_cons]
      rw [Nat.mod_add_mod]
      exact ih (acc + p.2)
  intro fs
  have h := aux fs 0
  simpa [sumFactorsU32, sumFactors] using h

/-- Claim C9 (amended): after any sequence of scored events, every pid's
score equals min(100, the contributing-factor total computed in uint32
arithmetic, i.e. mod 2^32) and lies in [0,100]; five 30-point add_risk
contributions saturate at exactly 100. -/
theorem c9_score_clamp_mod (th : Thresholds) (events : List Event) (pid : Nat) :
    (GetProcessRiskScore (events.foldl (ProcessEvent th) []) pid).score =
      min (sumFactors
        (GetProcessRiskScore (events.foldl (ProcessEvent th) []) pid).contributing_factors
        % U32) 100 ∧
    (GetProcessRiskScore (events.foldl (ProcessEvent th) []) pid).score ≤ 100 ∧
    (List.foldl (fun r nm => AddRisk th r nm 30) initRiskScore
      ["a", "b", "c", "d", "e"]).score = 100 := by
  have hws := wellScored_events th events [] wellScored_nil pid
  rw [sumFactorsU32_eq_mod] at hws
  refine ⟨hws, ?_, rfl⟩
  rw [hws]
  exact Nat.min_le_right _ _

/-- A REGISTRY_WRITE event for pid 1 whose key_path triggers the
registry_persistence_modification contribution (+20). -/
def regEvent : Event :=
  { type := EventType.REGISTRY_WRITE, timestamp := 0, pid := 1,
    process_name := "p.exe", metadata := [("key_path", "hklm\\software\\run")] }

/-- A FILE_CREATE event for pid 1 whose file_path triggers the
write_to_system_directory contribution (+15). -/
def fileEvent : Event :=
  { type := EventType.FILE_CREATE, timestamp := 0, pid := 1,
    process_name := "p.exe", metadata := [("file_path", "c:\\windows\\system32\\x.dll")] }

theorem contributions_reg :
    contributions regEvent = [("registry_persistence_modification", 20)] := by
  decide

theorem contributions_file :
    contributions fileEvent = [("write_to_system_directory", 15)] := by
  decide

theorem processEvent_reg (th : Thresholds) (s : ScorerState) :
    ProcessEvent th s regEvent =
      scorerAddRisk th s 1 "registry_persistence_modification" 20 := by
  rw [ProcessEvent, contributions_reg]
  rfl

theorem processEvent_file (th : Thresholds) (s : ScorerState) :
    ProcessEvent th s fileEvent =
      scorerAddRisk th s 1 "write_to_system_directory" 15 := by
  rw [ProcessEvent, contributions_file]
  rfl

/-- The pid-1 RiskScore after registry contributions totalling v (one map
entry, score clamped). -/
def regRisk (th : Thresholds) (v : Nat) : RiskScore :=
  { score := min v 100, level := CalculateLevel th (min v 100),
    contributing_factors := [("registry_persistence_modification", v)] }

theorem addRisk_reg_step (th : Thresholds) (v : Nat) :
    scorerAddRisk th [(1, regRisk th v)] 1 "registry_persistence_modification" 20 =
      [(1, regRisk th ((v + 20) % U32))] := by
  have h1 : ((v + 20) % U32) % U32 = (v + 20) % U32 := Nat.mod_mod_of_dvd _ dvd_rfl
  simp [scorerAddRisk, GetProcessRiskScore, List.lookup, setScore, AddRisk,
    bumpFactor, sumFactorsU32, regRisk, h1]

theorem regStart (th : Thresholds) :
    ProcessEvent th ([] : ScorerState) regEvent = [(1, regRisk th 20)] := by
  rw [processEvent_reg]
  have h20 : (0 + 20) % U32 = 20 := by decide
  simp [scorerAddRisk, GetProcessRiskScore, List.lookup, setScore, AddRisk,
    bumpFactor, sumFactorsU32, initRiskScore, regRisk, h20]

theorem regFold (th : Thresholds) :
    ∀ (n : Nat) (v : Nat), v < U32 →
      (List.replicate n regEvent).foldl (ProcessEvent th) [(1, regRisk th v)] =
        [(1, regRisk th ((v + 20 * n) % U32))] := by
  intro n
  induction n with
  | zero =>
    intro v hv
    simp [List.replicate, Nat.mod_eq_of_lt hv]
  | succ n ih =>
    intro v hv
    rw [List.replicate_succ, List.foldl_cons, processEvent_reg, addRisk_reg_step th v,
      ih _ (Nat.mod_lt _ (by decide))]
    have harith : ((v + 20) % U32 + 20 * n) % U32 = (v + 20 * (n + 1)) % U32 := by
      rw [Nat.mod_add_mod]
      congr 1
      ring
    rw [harith]

/-- The pid-1 RiskScore once the registry factor is frozen at 2147483300 and
the write_to_system_directory factor stands at u. -/
def twoRisk (th : Thresholds) (u : Nat) : RiskScore :=
  { score := min ((2147483300 + u) % U32) 100,
    level := CalculateLevel th (min ((2147483300 + u) % U32) 100),
    contributing_factors :=
      [("registry_persistence_modification", 2147483300),
       ("write_to_system_directory", u)] }

theorem addRisk_file_step (th : Thresholds) (u : Nat) :
    scorerAddRisk th [(1, twoRisk th u)] 1 "write_to_system_directory" 15 =
      [(1, twoRisk th ((u + 15) % U32))] := by
  have h1 : ((u + 15) % U32) % U32 = (u + 15) % U32 := Nat.mod_mod_of_dvd _ dvd_rfl
  have h2 : (0 + 2147483300) % U32 = 2147483300 := by decide
  simp [scorerAddRisk, GetProcessRiskScore, List.lookup, setScore, AddRisk,
    bumpFactor, sumFactorsU32, twoRisk, h1, h2]

theorem fileStart (th : Thresholds) :
    ProcessEvent th [(1, regRisk th 2147483300)] fileEvent = [(1, twoRisk th 15)] := by
  rw [processEvent_file]
  have h2 : (0 + 2147483300) % U32 = 2147483300 := by decide
  have h15 : (15 : Nat) % U32 = 15 := by decide
  simp [scorerAddRisk, GetProcessRiskScore, List.lookup, setScore, AddRisk,
    bumpFactor, sumFactorsU32, regRisk, twoRisk, h2, h15]

theorem fileFold (th : Thresholds) :
    ∀ (n : Nat) (u : Nat), u < U32 →
      (List.replicate n fileEvent).foldl (ProcessEvent th) [(1, twoRisk th u)] =
        [(1, twoRisk th ((u + 15 * n) % U32))] := by
  intro n
  induction n with
  | zero =>
    intro u hu
    simp [List.replicate, Nat.mod_eq_of_lt hu]
  | succ n ih =>
    intro u hu
    rw [List.replicate_succ, List.foldl_cons, processEvent_file, addRisk_file_step th u,
      ih _ (Nat.mod_lt _ (by decide))]
    have harith : ((u + 15) % U32 + 15 * n) % U32 = (u + 15 * (n + 1)) % U32 := by
      rw [Nat.mod_add_mod]
      congr 1
      ring
    rw [harith]

/-- Claim C9 counterexample: an explicit event sequence (107374165 registry
writes followed by 143165600 system-directory file writes, all for pid 1)
drives the stored factor entries to 2147483300 and 2147484000.  Their
mathematical sum is 4294967300, so the claim demands a score of
min(100, 4294967300) = 100, but the uint32 summation loop wraps to 4 and the
code stores score 4. -/
theorem c9_counterexample :
    (GetProcessRiskScore
        ((List.replicate 107374165 regEvent ++ List.replicate 143165600 fileEvent).foldl
          (ProcessEvent defaultThresholds) []) 1).score = 4 ∧
    min 100 (sumFactors
        (GetProcessRiskScore
          ((List.replicate 107374165 regEvent ++ List.replicate 143165600 fileEvent).foldl
            (ProcessEvent defaultThresholds) []) 1).contributing_factors) = 100 ∧
    (4 : Nat) ≠ 100 := by
  have hreg : (List.replicate 107374165 regEvent).foldl (ProcessEvent defaultThresholds) [] =
      [(1, regRisk defaultThresholds 2147483300)] := by
    rw [show (107374165 : Nat) = 107374164 + 1 from rfl, List.replicate_succ,
      List.foldl_cons, regStart, regFold defaultThresholds 107374164 20 (by decide)]
    norm_num [U32]
  have hstate : (List.replicate 107374165 regEvent ++
        List.replicate 143165600 fileEvent).foldl (ProcessEvent defaultThresholds) [] =
      [(1, twoRisk defaultThresholds 2147484000)] := by
    rw [List.foldl_append, hreg, show (143165600 : Nat) = 143165599 + 1 from rfl,
      List.replicate_succ, List.foldl_cons, fileStart,
      fileFold defaultThresholds 143165599 15 (by decide)]
    norm_num [U32]
  rw [hstate]
  refine ⟨?_, ?_, by decide⟩
  · simp only [GetProcessRiskScore, List.lookup, twoRisk]
    norm_num [U32]
  · simp only [GetProcessRiskScore, List.lookup, twoRisk, sumFactors]
    norm_num

/-! ## Incident manager (src/response/IncidentManager.cpp, .hpp) -/

/-- enum class IncidentState. -/
inductive IncidentState where
  | NEW
  | INVESTIGATING
  | ACTIVE
  | CONTAINED
  | CLOSED
  | ESCALATED
  deriving DecidableEq, Repr

/-- IncidentStateToString. -/
def IncidentStateToString : IncidentState → String
  | IncidentState.NEW => "NEW"
  | IncidentState.INVESTIGATING => "INVESTIGATING"
  | IncidentState.ACTIVE => "ACTIVE"
  | IncidentState.CONTAINED => "CONTAINED"
  | IncidentState.CLOSED => "CLOSED"
  | IncidentState.ESCALATED => "ESCALATED"

/-- struct StateTransition. -/
structure StateTransition where
  from_state : IncidentState
  to_state : IncidentState
  timestamp : Nat
  reason : String
  deriving DecidableEq, Repr

/-- struct ContainmentRecord. -/
structure ContainmentRecord where
  action : String
  success : Bool
  timestamp : Nat
  details : String
  deriving DecidableEq, Repr

/-- struct RiskScoreSnapshot. -/
structure RiskScoreSnapshot where
  score : Nat
  level : RiskLevel
  timestamp : Nat
  deriving DecidableEq, Repr

/-- struct Incident. -/
structure Incident where
  uuid : String
  pid : Nat
  process_name : String
  state : IncidentState
  associated_events : List Event
  risk_timeline : List RiskScoreSnapshot
  containment_actions : List ContainmentRecord
  state_history : List StateTransition
  created_at : Nat
  updated_at : Nat
  deriving DecidableEq, Repr

/-- IncidentManager::IsValidTransition, case for case. -/
def IsValidTransition : IncidentState → IncidentState → Bool
  | IncidentState.NEW, t => t = IncidentState.INVESTIGATING
  | IncidentState.INVESTIGATING, t => t = IncidentState.ACTIVE || t = IncidentState.CLOSED
  | IncidentState.ACTIVE, t =>
    t = IncidentState.CONTAINED || t = IncidentState.ESCALATED || t = IncidentState.CLOSED
  | IncidentState.ESCALATED, t => t = IncidentState.CONTAINED || t = IncidentState.CLOSED
  | IncidentState.CONTAINED, t => t = IncidentState.CLOSED
  | IncidentState.CLOSED, _ => false

/-- IncidentManager::TransitionState.  On an invalid transition it returns
false having mutated nothing; on a valid one it appends the StateTransition
to state_history, updates state and updated_at, and publishes one
IncidentStateChange event (returned in the list). -/
def TransitionState (incident : Incident) (new_state : IncidentState)
    (reason : String) (now : Nat) : Bool × Incident × List Event :=
  if IsValidTransition incident.state new_state then
    let tr : StateTransition :=
      { from_state := incident.state, to_state := new_state, timestamp := now, reason := reason }
    let inc2 :=
      { incident with state := new_state,
                      state_history := incident.state_history ++ [tr],
                      updated_at := now }
    let ev : Event :=
      { type := EventType.INCIDENT_STATE_CHANGE, timestamp := now, pid := incident.pid,
        process_name := "IncidentManager",
        metadata := [("incident_uuid", incident.uuid),
                     ("from_state", IncidentStateToString incident.state),
                     ("to_state", IncidentStateToString new_state),
                     ("reason", reason)] }
    (true, inc2, [ev])
  else
    (false, incident, [])

/-- Write-through of incidents_[uuid] (std::unordered_map assignment). -/
def setIncident : List (String × Incident) → String → Incident → List (String × Incident)
  | [], k, v => [(k, v)]
  | (a, b) :: rest, k, v =>
    if a = k then (a, v) :: rest else (a, b) :: setIncident rest k v

/-- Write-through of pid_to_incident_[pid]. -/
def setPidIndex : List (Nat × String) → Nat → String → List (Nat × String)
  | [], k, v => [(k, v)]
  | (a, b) :: rest, k, v =>
    if a = k then (a, v) :: rest else (a, b) :: setPidIndex rest k v

theorem lookup_setIncident_self : ∀ (l : List (String × Incident)) (k : String) (v : Incident),
    List.lookup k (setIncident l k v) = some v := by
  intro l
  induction l with
  | nil => intro k v; simp [setIncident, List.lookup]
  | cons p rest ih =>
    intro k v
    obtain ⟨a, b⟩ := p
    by_cases h : a = k
    · subst h; simp [setIncident, List.lookup]
    · simp only [setIncident, if_neg h, List.lookup]
      rw [show (k == a) = false by simpa using Ne.symm h]
      exact ih k v

theorem length_setIncident_of_lookup_none :
    ∀ (l : List (String × Incident)) (k : String) (v : Incident),
      List.lookup k l = none → (setIncident l k v).length = l.length + 1 := by
  intro l
  induction l with
  | nil => intro k v _; simp [setIncident]
  | cons p rest ih =>
    intro k v hnone
    obtain ⟨a, b⟩ := p
    by_cases h : a = k
    · exfalso
      rw [List.lookup, show (k == a) = true by simp [h]] at hnone
      simp at hnone
    · simp only [setIncident, if_neg h, List.length_cons]
      rw [List.lookup, show (k == a) = false by simpa using Ne.symm h] at hnone
      rw [ih k v hnone]

/-- incidents_ and pid_to_incident_: the in-memory incident store. -/
structure ManagerState where
  incidents : List (String × Incident)
  pid_to_incident : List (Nat × String)
  deriving DecidableEq, Repr

/-- The lookup phase of FindOrCreateIncident: the pid's indexed incident when
it exists and is not CLOSED. -/
def openIncidentFor (ms : ManagerState) (pid : Nat) : Option (String × Incident) :=
  match List.lookup pid ms.pid_to_incident with
  | some uuid =>
    match List.lookup uuid ms.incidents with
    | some inc => if inc.state ≠ IncidentState.CLOSED then some (uuid, inc) else none
    | none => none
  | none => none

/-- IncidentManager::FindOrCreateIncident.  GenerateUUID draws 16 random
bytes from the OS RNG; the fresh uuid is therefore a parameter here.  A new
incident starts in state NEW with empty lists and created_at = updated_at =
now. -/
def FindOrCreateIncident (ms : ManagerState) (pid : Nat) (process_name : String)
    (freshUuid : String) (now : Nat) : String × ManagerState :=
  match openIncidentFor ms pid with
  | some (uuid, _) => (uuid, ms)
  | none =>
    let incident : Incident :=
      { uuid := freshUuid, pid := pid, process_name := process_name,
        state := IncidentState.NEW, associated_events := [], risk_timeline := [],
        containment_actions := [], state_history := [],
        created_at := now, updated_at := now }
    (freshUuid,
     { incidents := setIncident ms.incidents freshUuid incident,
       pid_to_incident := setPidIndex ms.pid_to_incident pid freshUuid })

/-- The risk_level dispatch of OnRiskThresholdExceeded: the nested
TransitionState calls of the CRITICAL / HIGH / MEDIUM branches, with the
published IncidentStateChange events collected in call order. -/
def driveTransitions (incident : Incident) (risk_level : String) (now : Nat) :
    Incident × List Event :=
  if risk_level = "CRITICAL" then
    if incident.state = IncidentState.ACTIVE then
      let r := TransitionState incident IncidentState.ESCALATED "Risk level reached CRITICAL" now
      (r.2.1, r.2.2)
    else if incident.state = IncidentState.NEW ∨ incident.state = IncidentState.INVESTIGATING then
      let s0 :=
        if incident.state = IncidentState.NEW then
          let r := TransitionState incident IncidentState.INVESTIGATING "Initial risk threshold crossing" now
          (r.2.1, r.2.2)
        else (incident, [])
      let r1 := TransitionState s0.1 IncidentState.ACTIVE "Risk level reached HIGH+" now
      let r2 := TransitionState r1.2.1 IncidentState.ESCALATED "Risk level reached CRITICAL" now
      (r2.2.1, s0.2 ++ r1.2.2 ++ r2.2.2)
    else (incident, [])
  else if risk_level = "HIGH" then
    if incident.state = IncidentState.NEW then
      let r1 := TransitionState incident IncidentState.INVESTIGATING "Initial risk threshold crossing" now
      let r2 := TransitionState r1.2.1 IncidentState.ACTIVE "Risk level reached HIGH" now
      (r2.2.1, r1.2.2 ++ r2.2.2)
    else if incident.state = IncidentState.INVESTIGATING then
      let r1 := TransitionState incident IncidentState.ACTIVE "Risk level reached HIGH" now
      (r1.2.1, r1.2.2)
    else (incident, [])
  else if risk_level = "MEDIUM" then
    if incident.state = IncidentState.NEW then
      let r1 := TransitionState incident IncidentState.INVESTIGATING "Risk level reached MEDIUM" now
      (r1.2.1, r1.2.2)
    else (incident, [])
  else (incident, [])

/-- IncidentManager::OnRiskThresholdExceeded: find or create the pid's open
incident, append the event, snapshot the scorer's current risk when pid > 0,
dispatch the state transitions on metadata risk_level, and write the
incident back.  Returns the new state and the published events. -/
def OnRiskThresholdExceeded (ms : ManagerState) (scorer : ScorerState) (e : Event)
    (freshUuid : String) (now : Nat) : ManagerState × List Event :=
  let fr := FindOrCreateIncident ms e.pid e.process_name freshUuid now
  match List.lookup fr.1 fr.2.incidents with
  | none => (fr.2, [])
  | some inc0 =>
    let inc1 := { inc0 with associated_events := inc0.associated_events ++ [e],
                            updated_at := now }
    let inc2 :=
      if e.pid > 0 then
        let risk := GetProcessRiskScore scorer e.pid
        { inc1 with risk_timeline := inc1.risk_timeline ++
            [{ score := risk.score, level := risk.level, timestamp := now }] }
      else inc1
    let d :=
      match List.lookup "risk_level" e.metadata with
      | some rl => driveTransitions inc2 rl now
      | none => (inc2, [])
    ({ fr.2 with incidents := setIncident fr.2.incidents fr.1 d.1 }, d.2)

/-- IncidentManager::OnContainmentAction: locate the owning incident through
the pid index, append a ContainmentRecord — success is hard-coded true, the
event's reported outcome is never read — and transition to CONTAINED when
the state is ACTIVE or ESCALATED. -/
def OnContainmentAction (ms : ManagerState) (e : Event) (now : Nat) :
    ManagerState × List Event :=
  let uuid := (List.lookup e.pid ms.pid_to_incident).getD ""
  if uuid = "" then (ms, [])
  else
    match List.lookup uuid ms.incidents with
    | none => (ms, [])
    | some inc =>
      let record : ContainmentRecord :=
        { action := (List.lookup "action" e.metadata).getD "unknown",
          success := true,
          timestamp := now,
          details := (List.lookup "reason" e.metadata).getD "" }
      let inc1 := { inc with containment_actions := inc.containment_actions ++ [record],
                             updated_at := now }
      let d :=
        if inc1.state = IncidentState.ACTIVE ∨ inc1.state = IncidentState.ESCALATED then
          let r := TransitionState inc1 IncidentState.CONTAINED
            ("Containment action: " ++ record.action) now
          (r.2.1, r.2.2)
        else (inc1, [])
      ({ ms with incidents := setIncident ms.incidents uuid d.1 }, d.2)

theorem isValidTransition_chr : ∀ a b : IncidentState,
    IsValidTransition a b = true ↔
      ((a = IncidentState.NEW ∧ b = IncidentState.INVESTIGATING) ∨
       (a = IncidentState.INVESTIGATING ∧ (b = IncidentState.ACTIVE ∨ b = IncidentState.CLOSED)) ∨
       (a = IncidentState.ACTIVE ∧
         (b = IncidentState.CONTAINED ∨ b = IncidentState.ESCALATED ∨ b = IncidentState.CLOSED)) ∨
       (a = IncidentState.ESCALATED ∧ (b = IncidentState.CONTAINED ∨ b = IncidentState.CLOSED)) ∨
       (a = IncidentState.CONTAINED ∧ b = IncidentState.CLOSED)) := by
  intro a b
  cases a <;> cases b <;> simp [IsValidTransition]

/-- Claim C6: a requested transition is applied iff it is in the state
machine relation of the claim; an invalid request returns failure with the
incident unchanged in every field (the very same record) and publishes
nothing; in particular contain on Investigating fails with the incident
unchanged, and close on Active succeeds. -/
theorem c6_state_machine (inc : Incident) (ns : IncidentState)
    (reason : String) (now : Nat) :
    (IsValidTransition inc.state ns = true ↔
      ((inc.state = IncidentState.NEW ∧ ns = IncidentState.INVESTIGATING) ∨
       (inc.state = IncidentState.INVESTIGATING ∧ (ns = IncidentState.ACTIVE ∨ ns = IncidentState.CLOSED)) ∨
       (inc.state = IncidentState.ACTIVE ∧
         (ns = IncidentState.CONTAINED ∨ ns = IncidentState.ESCALATED ∨ ns = IncidentState.CLOSED)) ∨
       (inc.state = IncidentState.ESCALATED ∧ (ns = IncidentState.CONTAINED ∨ ns = IncidentState.CLOSED)) ∨
       (inc.state = IncidentState.CONTAINED ∧ ns = IncidentState.CLOSED))) ∧
    (IsValidTransition inc.state ns = false →
      TransitionState inc ns reason now = (false, inc, [])) ∧
    (IsValidTransition inc.state ns = true →
      (TransitionState inc ns reason now).1 = true ∧
      (TransitionState inc ns reason now).2.1.state = ns) ∧
    (inc.state = IncidentState.INVESTIGATING →
      TransitionState inc IncidentState.CONTAINED reason now = (false, inc, [])) ∧
    (inc.state = IncidentState.ACTIVE →
      (TransitionState inc IncidentState.CLOSED reason now).1 = true) := by
  refine ⟨isValidTransition_chr inc.state ns, ?_, ?_, ?_, ?_⟩
  · intro h
    simp [TransitionState, h]
  · intro h
    constructor <;> simp [TransitionState, h]
  · intro h
    simp [TransitionState, h, IsValidTransition]
  · intro h
    simp [TransitionState, h, IsValidTransition]

/-- A concrete incident sitting in Investigating. -/
def incInv : Incident :=
  { uuid := "u-11", pid := 11, process_name := "p.exe",
    state := IncidentState.INVESTIGATING, associated_events := [],
    risk_timeline := [], containment_actions := [], state_history := [],
    created_at := 0, updated_at := 0 }

/-- Witness for C6: contain on a concrete Investigating incident is rejected
with the incident unchanged; close on the same incident moved to Active
succeeds. -/
theorem c6_state_machine_witness :
    TransitionState incInv IncidentState.CONTAINED "Manual containment via CLI" 5 =
      (false, incInv, []) ∧
    (TransitionState { incInv with state := IncidentState.ACTIVE }
      IncidentState.CLOSED "Manual close via CLI" 5).1 = true :=
  ⟨(c6_state_machine incInv IncidentState.CONTAINED "Manual containment via CLI" 5).2.2.2.1 rfl,
   (c6_state_machine { incInv with state := IncidentState.ACTIVE }
      IncidentState.CLOSED "Manual close via CLI" 5).2.2.2.2 rfl⟩

theorem length_setIncident_of_lookup_some :
    ∀ (l : List (String × Incident)) (k : String) (v w : Incident),
      List.lookup k l = some w → (setIncident l k v).length = l.length := by
  intro l
  induction l with
  | nil => intro k v w h; simp [List.lookup] at h
  | cons p rest ih =>
    intro k v w h
    obtain ⟨a, b⟩ := p
    by_cases ha : a = k
    · simp [setIncident, ha]
    · simp only [setIncident, if_neg ha, List.length_cons]
      rw [List.lookup, show (k == a) = false by simpa using Ne.symm ha] at h
      rw [ih k v w h]

/-- Claim C7: a RiskThresholdExceeded event carrying risk_level CRITICAL for
a pid with no open incident creates exactly one incident; its final state is
Escalated; its state_history is exactly New→Investigating,
Investigating→Active, Active→Escalated, each valid per the state machine;
and exactly three IncidentStateChange events are published. -/
theorem c7_critical_escalation (ms : ManagerState) (scorer : ScorerState)
    (e : Event) (freshUuid : String) (now : Nat)
    (hopen : openIncidentFor ms e.pid = none)
    (hfresh : List.lookup freshUuid ms.incidents = none)
    (hlevel : List.lookup "risk_level" e.metadata = some "CRITICAL") :
    (OnRiskThresholdExceeded ms scorer e freshUuid now).1.incidents.length =
      ms.incidents.length + 1 ∧
    (∃ inc, List.lookup freshUuid (OnRiskThresholdExceeded ms scorer e freshUuid now).1.incidents = some inc ∧
      inc.state = IncidentState.ESCALATED ∧
      inc.state_history.map (fun t => (t.from_state, t.to_state)) =
        [(IncidentState.NEW, IncidentState.INVESTIGATING),
         (IncidentState.INVESTIGATING, IncidentState.ACTIVE),
         (IncidentState.ACTIVE, IncidentState.ESCALATED)] ∧
      (∀ t ∈ inc.state_history, IsValidTransition t.from_state t.to_state = true)) ∧
    (OnRiskThresholdExceeded ms scorer e freshUuid now).2.length = 3 ∧
    (∀ ev ∈ (OnRiskThresholdExceeded ms scorer e freshUuid now).2,
      ev.type = EventType.INCIDENT_STATE_CHANGE) := by
  by_cases hp : e.pid > 0 <;>
  · simp [OnRiskThresholdExceeded, FindOrCreateIncident, hopen, hlevel, hp,
      driveTransitions, TransitionState, IsValidTransition, lookup_setIncident_self]
    rw [length_setIncident_of_lookup_some _ _ _ _ (lookup_setIncident_self ms.incidents freshUuid _),
      length_setIncident_of_lookup_none ms.incidents freshUuid _ hfresh]

/-- A fresh manager with no incidents. -/
def msEmpty : ManagerState := { incidents := [], pid_to_incident := [] }

/-- A RiskThresholdExceeded event for pid 42 at CRITICAL risk level. -/
def evCrit : Event :=
  { type := EventType.RISK_THRESHOLD_EXCEEDED, timestamp := 0, pid := 42,
    process_name := "evil.exe", metadata := [("risk_level", "CRITICAL")] }

/-- Witness for C7 on a fresh manager, a fresh scorer and the concrete
CRITICAL event for pid 42. -/
theorem c7_critical_escalation_witness :
    (OnRiskThresholdExceeded msEmpty [] evCrit "u-42" 7).1.incidents.length =
      msEmpty.incidents.length + 1 ∧
    (∃ inc, List.lookup "u-42" (OnRiskThresholdExceeded msEmpty [] evCrit "u-42" 7).1.incidents = some inc ∧
      inc.state = IncidentState.ESCALATED ∧
      inc.state_history.map (fun t => (t.from_state, t.to_state)) =
        [(IncidentState.NEW, IncidentState.INVESTIGATING),
         (IncidentState.INVESTIGATING, IncidentState.ACTIVE),
         (IncidentState.ACTIVE, IncidentState.ESCALATED)] ∧
      (∀ t ∈ inc.state_history, IsValidTransition t.from_state t.to_state = true)) ∧
    (OnRiskThresholdExceeded msEmpty [] evCrit "u-42" 7).2.length = 3 ∧
    (∀ ev ∈ (OnRiskThresholdExceeded msEmpty [] evCrit "u-42" 7).2,
      ev.type = EventType.INCIDENT_STATE_CHANGE) :=
  c7_critical_escalation msEmpty [] evCrit "u-42" 7 (by decide) (by decide) (by decide)

theorem transitionState_actions (inc : Incident) (ns : IncidentState)
    (reason : String) (now : Nat) :
    (TransitionState inc ns reason now).2.1.containment_actions =
      inc.containment_actions := by
  rw [TransitionState]
  split <;> rfl

/-- Claim C10: for every ContainmentAction event with an owning incident,
the containment record appended to that incident is built with
success := true and the event's reported outcome is never read — the
appended record is the same for every metadata content, including one that
reports failure. -/
theorem c10_containment_success_hardcoded (ms : ManagerState) (e : Event)
    (now : Nat) (u : String) (inc : Incident)
    (hpid : List.lookup e.pid ms.pid_to_incident = some u)
    (hu : u ≠ "")
    (hinc : List.lookup u ms.incidents = some inc) :
    (List.lookup u (OnContainmentAction ms e now).1.incidents).map
        (fun i => i.containment_actions) =
      some (inc.containment_actions ++
        [{ action := (List.lookup "action" e.metadata).getD "unknown",
           success := true, timestamp := now,
           details := (List.lookup "reason" e.metadata).getD "" }]) := by
  rw [OnContainmentAction]
  simp only [hpid, Option.getD_some]
  rw [if_neg hu]
  simp only [hinc]
  by_cases hs : inc.state = IncidentState.ACTIVE ∨ inc.state = IncidentState.ESCALATED
  · simp [hs, lookup_setIncident_self, transitionState_actions]
  · simp [hs, lookup_setIncident_self]

/-- A concrete ACTIVE incident for pid 7. -/
def incActive7 : Incident :=
  { uuid := "u-7", pid := 7, process_name := "evil.exe",
    state := IncidentState.ACTIVE, associated_events := [],
    risk_timeline := [], containment_actions := [], state_history := [],
    created_at := 0, updated_at := 0 }

/-- A concrete manager owning one ACTIVE incident for pid 7. -/
def msOne : ManagerState :=
  { incidents := [("u-7", incActive7)],
    pid_to_incident := [(7, "u-7")] }

/-- A ContainmentAction event whose metadata reports a FAILED outcome. -/
def evContainFail : Event :=
  { type := EventType.CONTAINMENT_ACTION, timestamp := 0, pid := 7,
    process_name := "evil.exe",
    metadata := [("action", "process_terminate"), ("success", "false"),
                 ("reason", "High risk")] }

/-- Witness for C10: even though the event metadata says success=false, the
record appended to the owning incident carries success := true. -/
theorem c10_containment_success_hardcoded_witness :
    (List.lookup "u-7" (OnContainmentAction msOne evContainFail 9).1.incidents).map
        (fun i => i.containment_actions) =
      some ([] ++
        [{ action := (List.lookup "action" evContainFail.metadata).getD "unknown",
           success := true, timestamp := 9,
           details := (List.lookup "reason" evContainFail.metadata).getD "" }]) :=
  c10_containment_success_hardcoded msOne evContainFail 9 "u-7" incActive7
    (by decide) (by decide) (by decide)

/-! ## Incident persistence (src/persistence/DatabaseManager.cpp)

DatabaseManager::UpsertIncident serialises the incident into one row of the
incidents relation (nested arrays as JSON); LoadIncident fetches the row by
uuid and reconstructs the incident with DeserializeIncidentFromRow.  The
JSON encode/decode of the retained fields is lossless, so the row is
modelled structurally; the store keyed by uuid returns the row upsert wrote,
hence the load-after-upsert round trip of claim C8 is
DeserializeIncidentFromRow composed with the serialisation.
TimestampToISO8601 (gmtime-based clock formatting) is outside the modelled
arithmetic and passed as an opaque function. -/

/-- EventTypeToString (src/core/EventBus.hpp). -/
def EventTypeToString : EventType → String
  | EventType.PROCESS_CREATE => "PROCESS_CREATE"
  | EventType.PROCESS_TERMINATE => "PROCESS_TERMINATE"
  | EventType.FILE_CREATE => "FILE_CREATE"
  | EventType.FILE_MODIFY => "FILE_MODIFY"
  | EventType.FILE_DELETE => "FILE_DELETE"
  | EventType.NETWORK_CONNECT => "NETWORK_CONNECT"
  | EventType.NETWORK_DISCONNECT => "NETWORK_DISCONNECT"
  | EventType.REGISTRY_WRITE => "REGISTRY_WRITE"
  | EventType.RISK_THRESHOLD_EXCEEDED => "RISK_THRESHOLD_EXCEEDED"
  | EventType.INCIDENT_STATE_CHANGE => "INCIDENT_STATE_CHANGE"
  | EventType.CONTAINMENT_ACTION => "CONTAINMENT_ACTION"

/-- The static StringToEventType of DatabaseManager.cpp (default
PROCESS_CREATE). -/
def StringToEventType (s : String) : EventType :=
  if s = "PROCESS_CREATE" then EventType.PROCESS_CREATE
  else if s = "PROCESS_TERMINATE" then EventType.PROCESS_TERMINATE
  else if s = "FILE_CREATE" then EventType.FILE_CREATE
  else if s = "FILE_MODIFY" then EventType.FILE_MODIFY
  else if s = "FILE_DELETE" then EventType.FILE_DELETE
  else if s = "NETWORK_CONNECT" then EventType.NETWORK_CONNECT
  else if s = "NETWORK_DISCONNECT" then EventType.NETWORK_DISCONNECT
  else if s = "REGISTRY_WRITE" then EventType.REGISTRY_WRITE
  else if s = "RISK_THRESHOLD_EXCEEDED" then EventType.RISK_THRESHOLD_EXCEEDED
  else if s = "INCIDENT_STATE_CHANGE" then EventType.INCIDENT_STATE_CHANGE
  else if s = "CONTAINMENT_ACTION" then EventType.CONTAINMENT_ACTION
  else EventType.PROCESS_CREATE

/-- The ternary chain serialising a RiskLevel in UpsertIncident. -/
def riskLevelToString : RiskLevel → String
  | RiskLevel.LOW => "LOW"
  | RiskLevel.MEDIUM => "MEDIUM"
  | RiskLevel.HIGH => "HIGH"
  | RiskLevel.CRITICAL => "CRITICAL"

/-- The static StringToRiskLevel of DatabaseManager.cpp (default LOW). -/
def StringToRiskLevel (s : String) : RiskLevel :=
  if s = "MEDIUM" then RiskLevel.MEDIUM
  else if s = "HIGH" then RiskLevel.HIGH
  else if s = "CRITICAL" then RiskLevel.CRITICAL
  else RiskLevel.LOW

/-- The static StringToIncidentState of DatabaseManager.cpp (default NEW). -/
def StringToIncidentState (s : String) : IncidentState :=
  if s = "NEW" then IncidentState.NEW
  else if s = "INVESTIGATING" then IncidentState.INVESTIGATING
  else if s = "ACTIVE" then IncidentState.ACTIVE
  else if s = "CONTAINED" then IncidentState.CONTAINED
  else if s = "CLOSED" then IncidentState.CLOSED
  else if s = "ESCALATED" then IncidentState.ESCALATED
  else IncidentState.NEW

/-- The per-event JSON object UpsertIncident writes into events_json. -/
structure EventJson where
  event_type : String
  timestamp : String
  pid : Nat
  process_name : String
  metadata : List (String × String)
  deriving DecidableEq, Repr

/-- The per-snapshot JSON object of risk_json. -/
structure RiskJson where
  score : Nat
  level : String
  timestamp : String
  deriving DecidableEq, Repr

/-- The per-record JSON object of actions_json. -/
structure ActionJson where
  action : String
  success : Bool
  timestamp : String
  details : String
  deriving DecidableEq, Repr

/-- The per-transition JSON object of history_json. -/
structure HistJson where
  from_s : String
  to_s : String
  timestamp : String
  reason : String
  deriving DecidableEq, Repr

/-- One row of the incidents relation as UpsertIncident binds it. -/
structure IncidentRow where
  uuid : String
  pid : Nat
  process_name : String
  state_s : String
  created_s : String
  updated_s : String
  events_j : List EventJson
  risk_j : List RiskJson
  actions_j : List ActionJson
  history_j : List HistJson
  deriving DecidableEq, Repr

/-- The serialisation half of DatabaseManager::UpsertIncident: every
timestamp is rendered with TimestampToISO8601 (the opaque iso parameter). -/
def UpsertIncidentRow (iso : Nat → String) (incident : Incident) : IncidentRow :=
  { uuid := incident.uuid, pid := incident.pid,
    process_name := incident.process_name,
    state_s := IncidentStateToString incident.state,
    created_s := iso incident.created_at,
    updated_s := iso incident.updated_at,
    events_j := incident.associated_events.map (fun evt =>
      { event_type := EventTypeToString evt.type, timestamp := iso evt.timestamp,
        pid := evt.pid, process_name := evt.process_name, metadata := evt.metadata }),
    risk_j := incident.risk_timeline.map (fun snap =>
      { score := snap.score, level := riskLevelToString snap.level,
        timestamp := iso snap.timestamp }),
    actions_j := incident.containment_actions.map (fun r =>
      { action := r.action, success := r.success, timestamp := iso r.timestamp,
        details := r.details }),
    history_j := incident.state_history.map (fun tr =>
      { from_s := IncidentStateToString tr.from_state,
        to_s := IncidentStateToString tr.to_state,
        timestamp := iso tr.timestamp, reason := tr.reason }) }

/-- DeserializeIncidentFromRow, member for member.  created_at and
updated_at are assigned the literal 0; every nested sub-record timestamp is
assigned 0; the deserialised events are built through the Event constructor,
which stamps the current wall clock (the now parameter) instead of reading
the stored timestamp string back. -/
def DeserializeIncidentFromRow (row : IncidentRow) (now : Nat) : Incident :=
  { uuid := row.uuid, pid := row.pid, process_name := row.process_name,
    state := StringToIncidentState row.state_s,
    created_at := 0,
    updated_at := 0,
    associated_events := row.events_j.map (fun ej =>
      { type := StringToEventType ej.event_type, timestamp := now, pid := ej.pid,
        process_name := ej.process_name, metadata := ej.metadata }),
    risk_timeline := row.risk_j.map (fun rj =>
      { score := rj.score, level := StringToRiskLevel rj.level, timestamp := 0 }),
    containment_actions := row.actions_j.map (fun aj =>
      { action := aj.action, success := aj.success, timestamp := 0,
        details := aj.details }),
    state_history := row.history_j.map (fun hj =>
      { from_state := StringToIncidentState hj.from_s,
        to_state := StringToIncidentState hj.to_s,
        timestamp := 0, reason := hj.reason }) }

/-- A concrete incident with non-zero timestamps everywhere. -/
def incSample : Incident :=
  { uuid := "u-s", pid := 3, process_name := "a.exe",
    state := IncidentState.CONTAINED, associated_events := [],
    risk_timeline := [{ score := 50, level := RiskLevel.MEDIUM, timestamp := 777 }],
    containment_actions :=
      [{ action := "process_suspend", success := true, timestamp := 888, details := "d" }],
    state_history :=
      [{ from_state := IncidentState.NEW, to_state := IncidentState.INVESTIGATING,
         timestamp := 555, reason := "r" }],
    created_at := 1234, updated_at := 2345 }

/-- Claim C8: loading an incident after upserting it zeroes created_at,
updated_at and every nested sub-record timestamp, and resets associated
event timestamps to the load-time clock — so the round trip is not equal on
all observable fields; at the concrete incident incSample (created_at 1234,
nested timestamps 555/777/888) the loaded incident differs from the stored
one, regardless of the ISO-8601 formatter. -/
theorem c8_roundtrip_drops_timestamps (iso : Nat → String) (incident : Incident)
    (now : Nat) :
    (DeserializeIncidentFromRow (UpsertIncidentRow iso incident) now).created_at = 0 ∧
    (DeserializeIncidentFromRow (UpsertIncidentRow iso incident) now).updated_at = 0 ∧
    (∀ s ∈ (DeserializeIncidentFromRow (UpsertIncidentRow iso incident) now).risk_timeline,
      s.timestamp = 0) ∧
    (∀ a ∈ (DeserializeIncidentFromRow (UpsertIncidentRow iso incident) now).containment_actions,
      a.timestamp = 0) ∧
    (∀ t ∈ (DeserializeIncidentFromRow (UpsertIncidentRow iso incident) now).state_history,
      t.timestamp = 0) ∧
    (∀ ev ∈ (DeserializeIncidentFromRow (UpsertIncidentRow iso incident) now).associated_events,
      ev.timestamp = now) ∧
    incSample.created_at = 1234 ∧
    DeserializeIncidentFromRow (UpsertIncidentRow iso incSample) 999 ≠ incSample := by
  refine ⟨rfl, rfl, ?_, ?_, ?_, ?_, rfl, ?_⟩
  · intro s hs
    simp [DeserializeIncidentFromRow, UpsertIncidentRow, List.mem_map] at hs
    obtain ⟨x, -, hx⟩ := hs
    rw [← hx]
  · intro a ha
    simp [DeserializeIncidentFromRow, UpsertIncidentRow, List.mem_map] at ha
    obtain ⟨x, -, hx⟩ := ha
    rw [← hx]
  · intro t ht
    simp [DeserializeIncidentFromRow, UpsertIncidentRow, List.mem_map] at ht
    obtain ⟨x, -, hx⟩ := ht
    rw [← hx]
  · intro ev hev
    simp [DeserializeIncidentFromRow, UpsertIncidentRow, List.mem_map] at hev
    obtain ⟨x, -, hx⟩ := hev
    rw [← hx]
  · intro h
    have hc := congrArg Incident.created_at h
    simp [DeserializeIncidentFromRow, UpsertIncidentRow, incSample] at hc

end Cortex
